import Mathlib

/-!
Shallow embedding of the bookmark synchronization client in `src/app/page.js`.

The React component state (user, bookmarks, title, url, loading) is modelled
as an explicit `AppState`; the live realtime channels created by
`subscribeToChanges` are tracked in a `channels` field (each entry records the
`userId` captured by that channel's callback).  Every operation of the source
is a pure Lean function taking the network response as an explicit argument
(the code awaits exactly one network call per operation) and returning the new
state together with the ordered trace of observable effects (local collection
writes, network calls, console logs, alerts), in the order the source issues
them.
-/

namespace SmartBookmark

/-- A row of the `bookmarks` table, with the fields the source reads
(`id`, `title`, `url`, `user_id`, `created_at`). -/
structure Bookmark where
  id : Nat
  title : String
  url : String
  user_id : Nat
  created_at : Int
deriving DecidableEq, Repr

/-- Observable effects of one operation, in program order: a `setBookmarks`
write to the local collection, the three network calls the component issues,
a `console.error` log, an `alert`. -/
inductive Event where
  | setBookmarks (bs : List Bookmark)
  | netQuery (userId : Nat)
  | netInsert (title url : String) (userId : Nat)
  | netDelete (id : Nat)
  | logError (msg : String)
  | alertError (msg : String)
deriving DecidableEq, Repr

/-- The component state: `user`, `bookmarks`, `title`, `url`, `loading`
(lines 7-11 of the source), plus the list of live realtime channels, each
recorded by the `userId` its callback captured. -/
structure AppState where
  user : Option Nat
  bookmarks : List Bookmark
  title : String
  url : String
  loading : Bool
  channels : List Nat
deriving DecidableEq, Repr

/-- Initial component state (lines 7-11). -/
def initState : AppState :=
  { user := none, bookmarks := [], title := "", url := "", loading := true, channels := [] }

/-! ### The scheme test, line 78: the regex test `/^https?:\/\//i` -/

/-- Case-insensitive character comparison, as the `i` regex flag performs. -/
def charIEq (p c : Char) : Bool := p.toLower == c.toLower

/-- Match a literal pattern case-insensitively at the front of the input,
returning the remaining input on success (one step of the regex engine). -/
def matchLit : List Char → List Char → Option (List Char)
  | [], cs => some cs
  | _ :: _, [] => none
  | p :: ps, c :: cs => if charIEq p c then matchLit ps cs else none

/-- The anchored pattern `https?:\/\/` on a character list: match `http`,
then (greedily, with backtracking) an optional `s`, then `://`. -/
def regexTestL (cs : List Char) : Bool :=
  match matchLit ("http".data) cs with
  | none => false
  | some rest => (matchLit ("s://".data) rest).isSome || (matchLit ("://".data) rest).isSome

/-- The test `/^https?:\/\//i.test(url)` of line 78. -/
def regexTest (url : String) : Bool := regexTestL url.data

/-- Lines 77-80: prepend `https://` when the regex does not match. -/
def normalizeUrl (url : String) : String :=
  if regexTest url then url else "https://" ++ url

/-- Boolean test that `ps` is an initial segment of `cs`. -/
def leadsWith : List Char → List Char → Bool
  | [], _ => true
  | _ :: _, [] => false
  | p :: ps, c :: cs => (p == c) && leadsWith ps cs

/-- Spec-side reading of the scheme rule: the url, lowercased, starts with
`http://` or with `https://`. -/
def hasSchemeL (cs : List Char) : Bool :=
  leadsWith ("http://".data) (cs.map Char.toLower) ||
    leadsWith ("https://".data) (cs.map Char.toLower)

/-- Spec-side scheme predicate on strings. -/
def hasScheme (url : String) : Bool := hasSchemeL url.data

/-! ### Equivalence of the regex test with the spec's scheme predicate -/

theorem matchLit_append (ps qs cs : List Char) :
    matchLit (ps ++ qs) cs = (matchLit ps cs).bind (matchLit qs) := by
  induction ps generalizing cs with
  | nil => simp [matchLit]
  | cons p ps ih =>
    cases cs with
    | nil => simp [matchLit]
    | cons c cs =>
      simp only [List.cons_append, matchLit]
      by_cases h : charIEq p c = true
      · simp [h, ih]
      · simp [Bool.not_eq_true] at h
        simp [h]

theorem matchLit_isSome (ps cs : List Char) (hps : ∀ p ∈ ps, p.toLower = p) :
    (matchLit ps cs).isSome = leadsWith ps (cs.map Char.toLower) := by
  induction ps generalizing cs with
  | nil => simp [matchLit, leadsWith]
  | cons p ps ih =>
    cases cs with
    | nil => simp [matchLit, leadsWith]
    | cons c cs =>
      have hp : p.toLower = p := hps p (List.mem_cons_self p ps)
      have hrest : ∀ q ∈ ps, q.toLower = q := fun q hq => hps q (List.mem_cons_of_mem p hq)
      simp only [matchLit, List.map_cons, leadsWith]
      by_cases h : charIEq p c = true
      · have hpc : (p == c.toLower) = true := by
          have := h
          unfold charIEq at this
          rw [hp] at this
          exact this
        simp [h, hpc, ih cs hrest]
      · have hpc : (p == c.toLower) = false := by
          unfold charIEq at h
          rw [hp] at h
          exact Bool.not_eq_true _ ▸ Bool.eq_false_iff.mpr (fun hc => h (by rw [hc]))
        simp [Bool.not_eq_true] at h
        simp [h, hpc]

theorem regexTestL_eq_hasSchemeL (cs : List Char) : regexTestL cs = hasSchemeL cs := by
  have h7 : ("http://".data : List Char) = "http".data ++ "://".data := by decide
  have h8 : ("https://".data : List Char) = "http".data ++ "s://".data := by decide
  have l7 : ∀ p ∈ ("http://".data : List Char), p.toLower = p := by decide
  have l8 : ∀ p ∈ ("https://".data : List Char), p.toLower = p := by decide
  unfold hasSchemeL
  rw [← matchLit_isSome _ _ l7, ← matchLit_isSome _ _ l8, h7, h8,
    matchLit_append, matchLit_append]
  unfold regexTestL
  cases matchLit ("http".data) cs with
  | none => rfl
  | some rest =>
    simp [Option.bind, Bool.or_comm]

theorem regexTest_eq_hasScheme (url : String) : regexTest url = hasScheme url :=
  regexTestL_eq_hasSchemeL url.data

/-! ### The Remote Store Adapter's query -/

/-- Descending `created_at` order: `a` comes before `b`. -/
def byCreatedDesc (a b : Bookmark) : Prop := b.created_at ≤ a.created_at

instance : DecidableRel byCreatedDesc :=
  fun a b => inferInstanceAs (Decidable (b.created_at ≤ a.created_at))

instance : IsTotal Bookmark byCreatedDesc :=
  ⟨fun a b => le_total b.created_at a.created_at⟩

instance : IsTrans Bookmark byCreatedDesc :=
  ⟨fun _ _ _ hab hbc => le_trans hbc hab⟩

/-- Modelled from the spec: the Remote Store Adapter's query contract (§6),
consumed as a black box by `fetchBookmarks` (lines 47-51): the rows of the
`bookmarks` table whose `user_id` equals the given identity, ordered by
`created_at` descending.  (The adapter itself — `@/lib/supabaseClient` and the
backing store — is not under `src/`.) -/
def query (table : List Bookmark) (userId : Nat) : List Bookmark :=
  List.insertionSort byCreatedDesc (table.filter (fun b => b.user_id == userId))

/-! ### Engine operations (pure embeddings, network response as argument) -/

/-- Lines 46-55 (`fetchBookmarks`): issue the query; on error log and leave
the state untouched, on success replace the collection with the result. -/
def fetchBookmarks (userId : Nat) (result : Except String (List Bookmark))
    (s : AppState) : AppState × List Event :=
  match result with
  | .error msg => (s, [Event.netQuery userId, Event.logError ("Error fetching: " ++ msg)])
  | .ok data => ({ s with bookmarks := data }, [Event.netQuery userId, Event.setBookmarks data])

/-- A `fetchBookmarks` call whose query succeeds against table `table`,
returning what the adapter contract specifies. -/
def loadOk (userId : Nat) (table : List Bookmark) (s : AppState) : AppState :=
  (fetchBookmarks userId (Except.ok (query table userId)) s).1

/-- A sequence of successful loads, applied in order. -/
def applyLoads (loads : List (Nat × List Bookmark)) (s : AppState) : AppState :=
  loads.foldl (fun st p => loadOk p.1 p.2 st) s

/-- Lines 57-72 (`subscribeToChanges`): create a realtime channel on the
`bookmarks` table whose callback refetches for the captured `userId`, and
subscribe it.  The source builds a cleanup closure
(`() => supabase.removeChannel(channel)`) and returns it, but no caller ever
invokes or even stores it, so the embedding records only the new live
channel. -/
def subscribeToChanges (userId : Nat) (s : AppState) : AppState :=
  { s with channels := s.channels ++ [userId] }

/-- Lines 28-39: the `onAuthStateChange` listener body, with the result of the
(fire-and-forget) `fetchBookmarks` call supplied as an argument.  On a session
it refetches and subscribes; on none it clears the collection.  No channel is
ever removed. -/
def onAuthEvent (session : Option Nat) (fetchResult : Except String (List Bookmark))
    (s : AppState) : AppState :=
  match session with
  | some uid =>
    let s0 := { s with user := some uid }
    let s1 := (fetchBookmarks uid fetchResult s0).1
    let s2 := subscribeToChanges uid s1
    { s2 with loading := false }
  | none =>
    { s with user := none, bookmarks := [], loading := false }

/-- Lines 130-134 (`handleLogout`): sign out, then clear user and collection.
(The sign-out also triggers an `onAuthEvent none` via the listener.) -/
def handleLogout (s : AppState) : AppState :=
  { s with user := none, bookmarks := [] }

/-- Lines 74-103 (`addBookmark`): the guard `!title || !url || !user` returns
with no effect (the three tests all reach the same bare `return`); otherwise
normalize the url, issue the insert, and on success prepend the confirmed row
and clear the two input fields, on failure log and alert. -/
def addBookmark (result : Except String Bookmark) (s : AppState) : AppState × List Event :=
  match s.user with
  | none => (s, [])
  | some uid =>
    if s.title = "" ∨ s.url = "" then (s, [])
    else
      let finalUrl := normalizeUrl s.url
      match result with
      | .error msg =>
        (s, [Event.netInsert s.title finalUrl uid,
             Event.logError ("Error adding: " ++ msg),
             Event.alertError ("Error adding: " ++ msg)])
      | .ok rec =>
        ({ s with bookmarks := rec :: s.bookmarks, title := "", url := "" },
         [Event.netInsert s.title finalUrl uid,
          Event.setBookmarks (rec :: s.bookmarks)])

/-- Lines 105-119 (`deleteBookmark`): snapshot the collection, optimistically
filter out the matching id, issue the delete; on failure log, alert and
restore the snapshot. -/
def deleteBookmark (bid : Nat) (result : Option String) (s : AppState) :
    AppState × List Event :=
  let originalBookmarks := s.bookmarks
  let filtered := s.bookmarks.filter (fun b => b.id != bid)
  match result with
  | some msg =>
    ({ s with bookmarks := originalBookmarks },
     [Event.setBookmarks filtered, Event.netDelete bid,
      Event.logError ("Error deleting: " ++ msg),
      Event.alertError ("Error deleting: " ++ msg),
      Event.setBookmarks originalBookmarks])
  | none =>
    ({ s with bookmarks := filtered },
     [Event.setBookmarks filtered, Event.netDelete bid])

/-! ### Trace predicates -/

/-- Is the event a write to the local collection? -/
def isLocalWrite : Event → Bool
  | Event.setBookmarks _ => true
  | _ => false

/-- Is the event a network call to the Remote Store Adapter? -/
def isNetCall : Event → Bool
  | Event.netQuery _ => true
  | Event.netInsert _ _ _ => true
  | Event.netDelete _ => true
  | _ => false

/-- Does some local collection write strictly precede some network call in the
trace?  This is the formal reading of "the optimistic local mutation is
applied to the Collection before the network call is issued". -/
def localWriteBeforeNet : List Event → Bool
  | [] => false
  | e :: rest => (isLocalWrite e && rest.any isNetCall) || localWriteBeforeNet rest

/-! ### Concrete fixtures used by witnesses and counterexamples -/

/-- A stored bookmark of identity 1. -/
def bkX : Bookmark := { id := 1, title := "X", url := "https://x.com", user_id := 1, created_at := 1 }

/-- A second stored bookmark of identity 1, older than `bkX`. -/
def bkY : Bookmark := { id := 2, title := "Y", url := "https://y.com", user_id := 1, created_at := 0 }

/-- A third stored bookmark of identity 1, newer than `bkX`. -/
def bkZ : Bookmark := { id := 3, title := "Z", url := "https://z.com", user_id := 1, created_at := 2 }

/-- A server-confirmed row for a fresh insert (fresh id 5). -/
def bkNew : Bookmark :=
  { id := 5, title := "T", url := "https://x.com", user_id := 1, created_at := 9 }

/-- A logged-out state with both form fields filled. -/
def stA : AppState :=
  { user := none, bookmarks := [], title := "T", url := "x.com", loading := false, channels := [] }

/-- A logged-in state (identity 1, one stored bookmark) with both form fields
filled. -/
def stB : AppState :=
  { user := some 1, bookmarks := [bkX], title := "T", url := "x.com", loading := false,
    channels := [1] }

/-- A logged-in state displaying two bookmarks. -/
def stC : AppState :=
  { user := some 1, bookmarks := [bkX, bkY], title := "", url := "", loading := false,
    channels := [1] }

/-! ### Claim theorems -/

/-- C5: if a load (full reconciliation query) fails, the failure is logged and
the prior state — in particular the Collection — is left completely unchanged;
`fetchBookmarks` is a total function, so no crash occurs. -/
theorem load_failure_leaves_state (userId : Nat) (msg : String) (s : AppState) :
    (fetchBookmarks userId (Except.error msg) s).1 = s ∧
    Event.logError ("Error fetching: " ++ msg) ∈ (fetchBookmarks userId (Except.error msg) s).2 := by
  refine ⟨rfl, ?_⟩
  simp [fetchBookmarks]

/-- C6: the url the code persists is `normalizeUrl url` (lines 77-80, used at
line 87); it equals the input unchanged when the input already carries
`http://` or `https://` in any case, and `"https://" ++ input` otherwise. -/
theorem url_scheme_normalization (url : String) :
    normalizeUrl url = if hasScheme url then url else "https://" ++ url := by
  unfold normalizeUrl
  rw [regexTest_eq_hasScheme]

/-- C10: with no identity logged in, `addBookmark` is a complete no-op — the
state is unchanged and no network call (indeed no effect at all) is issued —
even when title and url are both valid non-empty strings. -/
theorem add_noop_without_identity (s : AppState) (r : Except String Bookmark)
    (_ht : ¬ s.title = "") (_hu : ¬ s.url = "") (hus : s.user = none) :
    addBookmark r s = (s, []) := by
  unfold addBookmark
  rw [hus]

theorem add_noop_without_identity_witness :
    ¬ stA.title = "" ∧ ¬ stA.url = "" ∧ stA.user = none ∧
      addBookmark (Except.error "boom") stA = (stA, []) :=
  ⟨by decide, by decide, rfl,
    add_noop_without_identity stA (Except.error "boom") (by decide) (by decide) rfl⟩

/-- C9: if the store rejects an add, the state after the failure equals the
pre-add state (so no provisional entry is present in the Collection), the
error is surfaced by an alert, and the trace shows exactly one insert call
(no retry) and no Collection write. -/
theorem add_failure_no_provisional (s : AppState) (uid : Nat) (msg : String)
    (ht : ¬ s.title = "") (hu : ¬ s.url = "") (hus : s.user = some uid) :
    (addBookmark (Except.error msg) s).1 = s ∧
    (addBookmark (Except.error msg) s).2 =
      [Event.netInsert s.title (normalizeUrl s.url) uid,
       Event.logError ("Error adding: " ++ msg),
       Event.alertError ("Error adding: " ++ msg)] := by
  unfold addBookmark
  rw [hus]
  dsimp only
  rw [if_neg (by tauto)]
  exact ⟨rfl, rfl⟩

theorem add_failure_no_provisional_witness :
    ¬ stB.title = "" ∧ ¬ stB.url = "" ∧ stB.user = some 1 ∧
      ((addBookmark (Except.error "boom") stB).1 = stB ∧
        (addBookmark (Except.error "boom") stB).2 =
          [Event.netInsert stB.title (normalizeUrl stB.url) 1,
           Event.logError ("Error adding: " ++ "boom"),
           Event.alertError ("Error adding: " ++ "boom")]) :=
  ⟨by decide, by decide, rfl,
    add_failure_no_provisional stB 1 "boom" (by decide) (by decide) rfl⟩

/-- C4: if the store rejects a delete, the Collection is restored exactly to
the snapshot captured before the optimistic removal; any entry carrying the
removed id that was present before is present again, unchanged, and the error
is surfaced by an alert. -/
theorem delete_failure_rollback (s : AppState) (bid : Nat) (msg : String) (b : Bookmark)
    (hb : b ∈ s.bookmarks) (_hid : b.id = bid) :
    (deleteBookmark bid (some msg) s).1.bookmarks = s.bookmarks ∧
    b ∈ (deleteBookmark bid (some msg) s).1.bookmarks ∧
    Event.alertError ("Error deleting: " ++ msg) ∈ (deleteBookmark bid (some msg) s).2 := by
  refine ⟨rfl, hb, ?_⟩
  simp [deleteBookmark]

theorem delete_failure_rollback_witness :
    bkX ∈ stC.bookmarks ∧ bkX.id = 1 ∧
      ((deleteBookmark 1 (some "down") stC).1.bookmarks = stC.bookmarks ∧
       bkX ∈ (deleteBookmark 1 (some "down") stC).1.bookmarks ∧
       Event.alertError ("Error deleting: " ++ "down") ∈ (deleteBookmark 1 (some "down") stC).2) :=
  ⟨by decide, rfl, delete_failure_rollback stC 1 "down" bkX (by decide) rfl⟩

/-- C1 counterexample: at a concrete valid input (logged-in state `stB`, both
fields non-empty, confirmed row `bkNew`), the trace of `addBookmark` contains
no write to the Collection before the network insert call — the only write
(the head insert of the confirmed row) happens after the call returns.  The
claim that every add applies an optimistic local insert before the network
call is therefore false of the code. -/
theorem add_not_optimistic_counterexample :
    localWriteBeforeNet (addBookmark (Except.ok bkNew) stB).2 = false := by decide

/-- C1 (amended): `deleteBookmark` applies its optimistic removal to the
Collection synchronously before issuing the delete call, but `addBookmark`
(with valid inputs) performs no local mutation before the insert call: its
trace begins with the network insert, and the head insert of the confirmed
row happens only after it. -/
theorem optimistic_mutation_ordering (s : AppState) (bid : Nat) (dres : Option String)
    (sa : AppState) (uid : Nat) (ares : Except String Bookmark)
    (ht : ¬ sa.title = "") (hu : ¬ sa.url = "") (hus : sa.user = some uid) :
    localWriteBeforeNet (deleteBookmark bid dres s).2 = true ∧
    localWriteBeforeNet (addBookmark ares sa).2 = false ∧
    (addBookmark ares sa).2.head? = some (Event.netInsert sa.title (normalizeUrl sa.url) uid) := by
  refine ⟨?_, ?_, ?_⟩
  · cases dres <;> rfl
  · unfold addBookmark
    rw [hus]
    dsimp only
    rw [if_neg (by tauto)]
    cases ares <;> rfl
  · unfold addBookmark
    rw [hus]
    dsimp only
    rw [if_neg (by tauto)]
    cases ares <;> rfl

theorem optimistic_mutation_ordering_witness :
    ¬ stB.title = "" ∧ ¬ stB.url = "" ∧ stB.user = some 1 ∧
      (localWriteBeforeNet (deleteBookmark 1 (some "down") stC).2 = true ∧
       localWriteBeforeNet (addBookmark (Except.ok bkNew) stB).2 = false ∧
       (addBookmark (Except.ok bkNew) stB).2.head? =
         some (Event.netInsert stB.title (normalizeUrl stB.url) 1)) :=
  ⟨by decide, by decide, rfl,
    optimistic_mutation_ordering stC 1 (some "down") stB 1 (Except.ok bkNew)
      (by decide) (by decide) rfl⟩

/-- C2, evaluated at the failing input: processing two identity-change events
carrying the same identity leaves two live change-feed subscriptions — the
cleanup closure `subscribeToChanges` returns is never invoked, so no previous
subscription is torn down and duplicate events are not idempotent. -/
theorem duplicate_event_two_subscriptions :
    (onAuthEvent (some 1) (Except.ok [bkX])
        (onAuthEvent (some 1) (Except.ok [bkX]) initState)).channels = [1, 1] := rfl

/-- C3, evaluated at the failing input: with 3 bookmarks displayed and one
live subscription, a logout (`handleLogout` followed by the listener's
identity-none event) clears the Collection to empty, but the change-feed
subscription for the previous identity remains live — it is never torn
down. -/
theorem logout_clears_but_leaks_channel :
    (onAuthEvent none (Except.ok [])
        (handleLogout (onAuthEvent (some 1) (Except.ok [bkZ, bkX, bkY]) initState))).bookmarks
        = [] ∧
    (onAuthEvent none (Except.ok [])
        (handleLogout (onAuthEvent (some 1) (Except.ok [bkZ, bkX, bkY]) initState))).channels
        = [1] :=
  ⟨rfl, rfl⟩

/-- C8: a successful add of a fresh row followed immediately by a remove of
the resulting id returns the Collection to its pre-add contents (the remove's
optimistic filter drops exactly the new row, since the server-assigned id is
fresh). -/
theorem add_remove_roundtrip (s : AppState) (uid : Nat) (rec : Bookmark)
    (ht : ¬ s.title = "") (hu : ¬ s.url = "") (hus : s.user = some uid)
    (hfresh : ∀ b ∈ s.bookmarks, b.id ≠ rec.id) :
    (deleteBookmark rec.id none (addBookmark (Except.ok rec) s).1).1.bookmarks = s.bookmarks := by
  have h1 : (addBookmark (Except.ok rec) s).1.bookmarks = rec :: s.bookmarks := by
    unfold addBookmark
    rw [hus]
    dsimp only
    rw [if_neg (by tauto)]
  show (addBookmark (Except.ok rec) s).1.bookmarks.filter (fun b => b.id != rec.id) = s.bookmarks
  rw [h1, List.filter_cons]
  simp only [bne_self_eq_false, if_false]
  exact List.filter_eq_self.mpr (fun b hb => by simpa using hfresh b hb)

/-- A sequence of loads ending in a given load is that load applied to the
state the earlier loads produce. -/
theorem applyLoads_concat (loads : List (Nat × List Bookmark)) (u : Nat)
    (t : List Bookmark) (s : AppState) :
    applyLoads (loads ++ [(u, t)]) s = loadOk u t (applyLoads loads s) := by
  simp [applyLoads, List.foldl_append]

/-- The query result is sorted by `created_at` descending. -/
theorem query_sorted (t : List Bookmark) (u : Nat) :
    List.Sorted byCreatedDesc (query t u) :=
  List.sorted_insertionSort byCreatedDesc _

/-- The query result has no duplicate ids when the table has none. -/
theorem query_nodup_ids (t : List Bookmark) (u : Nat)
    (h : (t.map Bookmark.id).Nodup) : ((query t u).map Bookmark.id).Nodup := by
  have hsub : List.Sublist ((t.filter (fun b => b.user_id == u)).map Bookmark.id)
      (t.map Bookmark.id) :=
    (List.filter_sublist t).map Bookmark.id
  have hnd : ((t.filter (fun b => b.user_id == u)).map Bookmark.id).Nodup :=
    List.Nodup.sublist hsub h
  exact (((List.perm_insertionSort byCreatedDesc
    (t.filter (fun b => b.user_id == u))).map Bookmark.id).nodup_iff).mpr hnd

/-- Every row the query returns is owned by the queried identity. -/
theorem query_owner (t : List Bookmark) (u : Nat) :
    ∀ b ∈ query t u, b.user_id = u := by
  intro b hb
  have hmem : b ∈ t.filter (fun x => x.user_id == u) :=
    ((List.perm_insertionSort byCreatedDesc _).mem_iff).mp hb
  simpa using (List.mem_filter.mp hmem).2

/-- C7: after any sequence of successful loads ending with a load for
identity `u` against a table with no duplicate ids, the Collection is sorted
by `created_at` descending, contains no two entries sharing an id, and every
entry is owned by `u`, the identity the query filtered by. -/
theorem loads_collection_invariant (prior : List (Nat × List Bookmark)) (u : Nat)
    (t : List Bookmark) (s : AppState) (h : (t.map Bookmark.id).Nodup) :
    List.Sorted byCreatedDesc (applyLoads (prior ++ [(u, t)]) s).bookmarks ∧
    ((applyLoads (prior ++ [(u, t)]) s).bookmarks.map Bookmark.id).Nodup ∧
    (applyLoads (prior ++ [(u, t)]) s).bookmarks.all (fun b => b.user_id == u) = true := by
  rw [applyLoads_concat]
  have hbk : (loadOk u t (applyLoads prior s)).bookmarks = query t u := rfl
  rw [hbk]
  refine ⟨query_sorted t u, query_nodup_ids t u h, ?_⟩
  rw [List.all_eq_true]
  intro b hb
  simpa using query_owner t u b hb

theorem loads_collection_invariant_witness :
    (([bkX, bkY].map Bookmark.id).Nodup) ∧
      (List.Sorted byCreatedDesc (applyLoads [(1, [bkX, bkY])] initState).bookmarks ∧
       ((applyLoads [(1, [bkX, bkY])] initState).bookmarks.map Bookmark.id).Nodup ∧
       (applyLoads [(1, [bkX, bkY])] initState).bookmarks.all (fun b => b.user_id == 1) = true) :=
  ⟨by decide, loads_collection_invariant [] 1 [bkX, bkY] initState (by decide)⟩

theorem add_remove_roundtrip_witness :
    ¬ stB.title = "" ∧ ¬ stB.url = "" ∧ stB.user = some 1 ∧
      (∀ b ∈ stB.bookmarks, b.id ≠ bkNew.id) ∧
      (deleteBookmark bkNew.id none (addBookmark (Except.ok bkNew) stB).1).1.bookmarks
        = stB.bookmarks :=
  ⟨by decide, by decide, rfl, by decide,
    add_remove_roundtrip stB 1 bkNew (by decide) (by decide) rfl (by decide)⟩

end SmartBookmark
